/-
  Verification of the todo client's pagination and gateway logic.

  The embedding covers:
  - the Todo Client Gateway (src/src/api/todoApi.ts): getTodos, createTodo,
    toggleTodo, deleteTodo, as pure functions of the HTTP response, with the
    issued requests modelled explicitly;
  - the view-level glue of src/src/App.tsx: getNextPageParam, handleObserver,
    the flattening of pages (flatMap), handleSubmit, and the mutation
    onSuccess handlers;
  - the Paginated Todo Cache, modelled from the spec (see section 4.2), since
    its implementation lives in the external data-fetching library and not in
    this repository's sources;
  - a model of the Remote Todo Service, modelled from the spec (section 6),
    used to run concrete pagination scenarios.
-/
import Mathlib

namespace TodoClient

/-- Todo resource: `{id, title, completed, userId}` (src/src/types, as used
throughout src/src/api/todoApi.ts and src/src/App.tsx). -/
structure Todo where
  id : Nat
  title : String
  completed : Bool
  userId : Nat
deriving Repr, DecidableEq

/-- CreateTodoInput: the body posted by createTodo (`{title, userId}`). -/
structure CreateTodoInput where
  title : String
  userId : Nat
deriving Repr, DecidableEq

/-- An HTTP response as observed by the gateway: its status code, the
`x-total-count` header (absent, or present and parsed as a decimal integer;
only getTodos reads it), and the parsed JSON body. -/
structure Response (α : Type) where
  status : Nat
  totalCountHeader : Option Nat
  body : α
deriving Repr, DecidableEq

/-- `response.ok` of the fetch API: status in the inclusive range 200-299. -/
def Response.ok {α : Type} (r : Response α) : Bool :=
  200 ≤ r.status && r.status < 300

/-- The GET request issued by getTodos:
`/todos?_page=pageParam&_limit=limit`. -/
structure ListRequest where
  page : Nat
  limit : Nat
deriving Repr, DecidableEq

/-- From src/src/api/todoApi.ts, getTodos: the request it issues, with
`_page = pageParam` and `_limit = limit` where `const limit = 10`. -/
def getTodosRequest (pageParam : Nat) : ListRequest :=
  { page := pageParam, limit := 10 }

/-- The object getTodos resolves with: `{todos, hasNextPage, nextCursor}`. -/
structure TodoPage where
  todos : List Todo
  hasNextPage : Bool
  nextCursor : Option Nat
deriving Repr, DecidableEq

/-- From src/src/api/todoApi.ts, getTodos: throws `"Failed to fetch todos"`
when `!response.ok`; otherwise reads the `x-total-count` header, computes
`hasNextPage = totalCount && pageParam * limit < parseInt(totalCount)`
(a missing header is null, hence falsy), and resolves with
`{todos: data, hasNextPage, nextCursor: hasNextPage ? pageParam + 1 :
undefined}`. -/
def getTodos (pageParam : Nat) (response : Response (List Todo)) :
    Except String TodoPage :=
  if !response.ok then
    Except.error "Failed to fetch todos"
  else
    let hasNextPage : Bool :=
      match response.totalCountHeader with
      | none => false
      | some totalCount => decide (pageParam * 10 < totalCount)
    Except.ok
      { todos := response.body
        hasNextPage := hasNextPage
        nextCursor := if hasNextPage then some (pageParam + 1) else none }

/-- The POST request issued by createTodo: `/todos` with the todo as body. -/
structure CreateRequest where
  body : CreateTodoInput
deriving Repr, DecidableEq

/-- From src/src/api/todoApi.ts, createTodo: the POST request it issues. -/
def createTodoRequest (todo : CreateTodoInput) : CreateRequest :=
  { body := todo }

/-- From src/src/api/todoApi.ts, createTodo: throws `"Failed to create todo"`
when `!response.ok`, otherwise resolves with the response body. -/
def createTodo (response : Response Todo) : Except String Todo :=
  if !response.ok then
    Except.error "Failed to create todo"
  else
    Except.ok response.body

/-- The PATCH request issued by toggleTodo: `/todos/{id}` with body
`{completed: b}`. -/
structure PatchRequest where
  id : Nat
  completed : Bool
deriving Repr, DecidableEq

/-- From src/src/api/todoApi.ts, toggleTodo: the PATCH request it issues,
`/todos/${todo.id}` with body `{completed: !todo.completed}`. -/
def toggleTodoRequest (todo : Todo) : PatchRequest :=
  { id := todo.id, completed := !todo.completed }

/-- From src/src/api/todoApi.ts, toggleTodo: throws `"Failed to update todo"`
when `!response.ok`, otherwise resolves with the response body. -/
def toggleTodo (response : Response Todo) : Except String Todo :=
  if !response.ok then
    Except.error "Failed to update todo"
  else
    Except.ok response.body

/-- toggleTodo's interaction with its argument: it returns the request built
from the input todo together with the input object as it stands after the
call. The source reads `todo.id` and `todo.completed` and never assigns to
any field of `todo`, so the object is unchanged. -/
def toggleTodoCall (todo : Todo) : Todo × PatchRequest :=
  (todo, toggleTodoRequest todo)

/-- The DELETE request issued by deleteTodo: `/todos/{id}`. -/
structure DeleteRequest where
  id : Nat
deriving Repr, DecidableEq

/-- From src/src/api/todoApi.ts, deleteTodo: the DELETE request it issues. -/
def deleteTodoRequest (id : Nat) : DeleteRequest :=
  { id := id }

/-- From src/src/api/todoApi.ts, deleteTodo: throws `"Failed to delete todo"`
when `!response.ok`, otherwise resolves with no value. -/
def deleteTodo (response : Response Unit) : Except String Unit :=
  if !response.ok then
    Except.error "Failed to delete todo"
  else
    Except.ok ()

/-- From src/src/App.tsx: `initialPageParam: 1` of the useInfiniteQuery
options. -/
def initialPageParam : Nat := 1

/-- From src/src/App.tsx, getNextPageParam reads `lastPage.nextPage`. The
object getTodos resolves with has exactly the fields `todos`, `hasNextPage`
and `nextCursor`; in JavaScript, reading the absent property `nextPage` of
such an object yields `undefined`, modelled here as the constant `none`. -/
def TodoPage.nextPage (_ : TodoPage) : Option Nat := none

/-- From src/src/App.tsx lines 57-61:
`getNextPageParam: (lastPage) => lastPage.nextPage`. -/
def getNextPageParam (lastPage : TodoPage) : Option Nat :=
  lastPage.nextPage

/-- From src/src/App.tsx, handleObserver: fetchNextPage() is invoked exactly
when `target.isIntersecting && hasNextPage && !isFetchingNextPage`. Returns
whether the call is made. -/
def handleObserver (isIntersecting hasNextPage isFetchingNextPage : Bool) :
    Bool :=
  isIntersecting && hasNextPage && !isFetchingNextPage

/-- From src/src/App.tsx line 157: the view's flattened list,
`data?.pages.flatMap(page => page.todos)`. -/
def flattenTodos (pages : List TodoPage) : List Todo :=
  pages.flatMap (fun page => page.todos)

/-- From src/src/App.tsx line 157 including the `?? []` default: `data` is
undefined before any page resolved. -/
def todos (data : Option (List TodoPage)) : List Todo :=
  match data with
  | none => []
  | some pages => flattenTodos pages

/-- Model of `String.prototype.trim` as called in handleSubmit: removes
leading and trailing whitespace. -/
def jsTrim (s : String) : String :=
  String.mk
    (((s.toList.dropWhile Char.isWhitespace).reverse.dropWhile
        Char.isWhitespace).reverse)

/-- From src/src/App.tsx, handleSubmit: `if (!newTodo.trim()) return;
createTodoMutation.mutate(newTodo)`. An empty string is falsy, so no create
request is issued exactly when the trimmed input is empty; otherwise the
untrimmed input is submitted as the title with `userId = 1` (from the
mutationFn `createTodo({ title, userId: 1 })`). -/
def handleSubmit (newTodo : String) : Option CreateTodoInput :=
  if jsTrim newTodo = "" then none
  else some { title := newTodo, userId := 1 }

/-- Modelled from the spec: the Remote Todo Service (section 6) holding
`totalCount` todos with distinct server-assigned ids, listed in a fixed
server order. Its implementation is not part of this repository. -/
def mkServerTodo (i : Nat) : Todo :=
  { id := i + 1, title := "todo", completed := false, userId := 1 }

/-- Modelled from the spec: the server's full ordered todo collection. -/
def serverTodos (totalCount : Nat) : List Todo :=
  (List.range totalCount).map mkServerTodo

/-- Modelled from the spec: the body of `GET /todos?_page=page&_limit=10`,
the page-th (1-based) block of ten todos. -/
def serverBody (totalCount page : Nat) : List Todo :=
  ((serverTodos totalCount).drop ((page - 1) * 10)).take 10

/-- Modelled from the spec: a successful list response carrying the
`x-total-count` header. -/
def serverResponse (totalCount page : Nat) : Response (List Todo) :=
  { status := 200, totalCountHeader := some totalCount
    body := serverBody totalCount page }

/-- Modelled from the spec: the state of the Paginated Todo Cache
(section 4.2 and section 3, Fetch State). The cache implementation lives in
the external data-fetching library, not under src/; `inFlight` carries the
pageParam of the single request in flight, if any, and `hasNextPage` is
derived from the last page's cursor presence. -/
structure CacheState where
  pages : List TodoPage
  inFlight : Option Nat
  hasNextPage : Bool
  errored : Bool
deriving Repr, DecidableEq

/-- Modelled from the spec: `initialLoad()` fetches page `initialPageParam`
with no pages accumulated yet. -/
def initialLoad : CacheState :=
  { pages := [], inFlight := some initialPageParam
    hasNextPage := false, errored := false }

/-- Modelled from the spec: `fetchNextPage()` is a no-op (issues no request)
if a fetch is in flight or `hasNextPage` is false; otherwise it requests the
page identified by the last page's `nextCursor`. The second component is the
pageParam of the issued network request, `none` when no request is issued. -/
def fetchNextPage (s : CacheState) : CacheState × Option Nat :=
  if s.inFlight.isSome || !s.hasNextPage then (s, none)
  else
    match s.pages.getLast? with
    | none => (s, none)
    | some lastPage =>
      match lastPage.nextCursor with
      | none => (s, none)
      | some cursor => ({ s with inFlight := some cursor }, some cursor)

/-- Modelled from the spec: a successful page fetch appends the result to the
page sequence and updates `hasNextPage` from the new page's cursor
presence. -/
def resolveSuccess (s : CacheState) (page : TodoPage) : CacheState :=
  { pages := s.pages ++ [page], inFlight := none
    hasNextPage := page.nextCursor.isSome, errored := false }

/-- Modelled from the spec: a failed page fetch surfaces the error and leaves
previously loaded pages intact; no retry is issued (the resulting state has
no request in flight and the transition emits no request). -/
def resolveFailure (s : CacheState) : CacheState :=
  { s with inFlight := none, errored := true }

/-- Modelled from the spec: `invalidate()` discards all cached pages and
re-runs `initialLoad()`. -/
def invalidate (_ : CacheState) : CacheState :=
  initialLoad

/-- The three mutations wired up in src/src/App.tsx. -/
inductive MutationKind
  | create
  | toggle
  | delete
deriving Repr, DecidableEq

/-- Client state owned by the view: the controlled input field and the
cache. -/
structure AppState where
  newTodo : String
  cache : CacheState
deriving Repr, DecidableEq

/-- From src/src/App.tsx: the onSuccess handlers of createTodoMutation,
toggleTodoMutation and deleteTodoMutation. Each calls
`queryClient.invalidateQueries({queryKey: ['todos']})`; the create handler
additionally runs `setNewTodo('')`. -/
def onMutationSuccess (kind : MutationKind) (s : AppState) : AppState :=
  match kind with
  | MutationKind.create => { newTodo := "", cache := invalidate s.cache }
  | MutationKind.toggle => { s with cache := invalidate s.cache }
  | MutationKind.delete => { s with cache := invalidate s.cache }

/-- From src/src/App.tsx, handleSubmit acting on the view state: the handler
either returns early or calls `createTodoMutation.mutate(newTodo)`; in both
cases the client state is unchanged at the time of the call (the input is
cleared only later, in the mutation's onSuccess). -/
def handleSubmitState (s : AppState) : AppState × Option CreateTodoInput :=
  (s, handleSubmit s.newTodo)

/-- The sequence of pages obtained by an initial load at `pageParam` against
the modelled server followed by next-page fetches, each requesting the page
identified by the previous page's `nextCursor` (the cache contract of
section 4.2), stopping when the cursor is absent, a fetch fails, or `fuel`
fetches have been made. -/
def fetchChain (totalCount : Nat) : Nat → Nat → List TodoPage
  | 0, _ => []
  | fuel + 1, pageParam =>
    match getTodos pageParam (serverResponse totalCount pageParam) with
    | Except.error _ => []
    | Except.ok page =>
      match page.nextCursor with
      | none => [page]
      | some next => page :: fetchChain totalCount fuel next

/-- The cache state holding the first two pages of the 25-item scenario, with
the page-3 request in flight: initial load resolved with page 1, then one
fetchNextPage resolved with page 2, then a second fetchNextPage issued. -/
def twoPagesState : CacheState :=
  (fetchNextPage
    (resolveSuccess
      ((fetchNextPage
        (resolveSuccess initialLoad
          { todos := serverBody 25 1, hasNextPage := true
            nextCursor := some 2 })).1)
      { todos := serverBody 25 2, hasNextPage := true
        nextCursor := some 3 })).1

/-! ### Shared helper lemmas -/

/-- fetchNextPage issues no request and leaves the state unchanged when a
fetch is in flight or hasNextPage is false. -/
theorem fetchNextPage_of_blocked (s : CacheState)
    (h : s.inFlight.isSome = true ∨ s.hasNextPage = false) :
    fetchNextPage s = (s, none) := by
  unfold fetchNextPage
  rcases h with h | h
  · simp [h]
  · simp [h]

/-- Every fetchNextPage call either leaves the state unchanged and issues no
request, or issues a request for some cursor from an idle state, marking that
cursor in flight. -/
theorem fetchNextPage_request_shape (s : CacheState) :
    ((fetchNextPage s).2 = none ∧ (fetchNextPage s).1 = s) ∨
    (∃ c, (fetchNextPage s).2 = some c ∧ s.inFlight = none ∧
      (fetchNextPage s).1 = { s with inFlight := some c }) := by
  unfold fetchNextPage
  split
  · exact Or.inl ⟨rfl, rfl⟩
  next hcond =>
    have hif : s.inFlight = none := by
      cases hf : s.inFlight with
      | none => rfl
      | some v => exact absurd (by simp [hf]) hcond
    split
    · exact Or.inl ⟨rfl, rfl⟩
    · split
      · exact Or.inl ⟨rfl, rfl⟩
      next c hc => exact Or.inr ⟨c, rfl, hif, rfl⟩

/-- List disjointness is decidable over a type with decidable equality, so
concrete witnesses can be checked by evaluation. -/
instance listDisjointDecidable {α : Type} [DecidableEq α] (l1 l2 : List α) :
    Decidable (List.Disjoint l1 l2) :=
  decidable_of_iff (∀ a ∈ l1, a ∉ l2) List.disjoint_left.symm

/-- An all-whitespace string trims to the empty string. -/
theorem jsTrim_eq_empty_of_whitespace (s : String)
    (h : ∀ c ∈ s.toList, c.isWhitespace = true) : jsTrim s = "" := by
  unfold jsTrim
  rw [List.dropWhile_eq_nil_iff.mpr h]
  rfl

/-! ### Claim theorems -/

/-- C1: getNextPageParam in src/src/App.tsx must hand the last page's
`nextCursor` to the next fetch, so that fetchNextPage requests exactly the
page it identifies. The code instead reads `lastPage.nextPage`, a field the
getTodos result does not carry: on the successful page-1 fetch against a
25-item server, whose result carries `nextCursor = 2`, getNextPageParam
nevertheless yields `undefined`, so the library derives `hasNextPage =
false` and page 2 is never requested. -/
theorem next_page_param_bug :
    getTodos 1 (serverResponse 25 1) =
      Except.ok
        { todos := serverBody 25 1, hasNextPage := true
          nextCursor := some 2 } ∧
    getNextPageParam
        { todos := serverBody 25 1, hasNextPage := true
          nextCursor := some 2 } = none :=
  ⟨rfl, rfl⟩

/-- C2: against a server with total count 25 and page size 10, the chain of
page fetches starting from the initial page parameter 1 makes exactly three
fetches whose results carry `hasNextPage = true, true, false`, requesting
cursors 2 then 3 and then stopping, with cumulative flattened item counts
10, 20 and 25. -/
theorem pagination_25_by_10 :
    (fetchChain 25 3 initialPageParam).map TodoPage.hasNextPage
      = [true, true, false] ∧
    (fetchChain 25 3 initialPageParam).map TodoPage.nextCursor
      = [some 2, some 3, none] ∧
    fetchChain 25 4 initialPageParam = fetchChain 25 3 initialPageParam ∧
    (flattenTodos ((fetchChain 25 3 initialPageParam).take 1)).length = 10 ∧
    (flattenTodos ((fetchChain 25 3 initialPageParam).take 2)).length = 20 ∧
    (flattenTodos ((fetchChain 25 3 initialPageParam).take 3)).length = 25 := by
  refine ⟨by decide, by decide, by decide, by decide, by decide, by decide⟩

/-- C3: for every pageParam and every successful response carrying the
total-count header, getTodos requests `_page = pageParam` with fixed
`_limit = 10` (1-based: the initial request uses page 1), computes
`hasNextPage = pageParam * 10 < totalCount`, and returns
`nextCursor = pageParam + 1` exactly when that inequality holds, `none`
otherwise. -/
theorem getTodos_cursor_spec (pageParam totalCount : Nat)
    (r : Response (List Todo)) (hok : r.ok = true)
    (hheader : r.totalCountHeader = some totalCount) :
    (getTodosRequest pageParam).page = pageParam ∧
    (getTodosRequest pageParam).limit = 10 ∧
    getTodosRequest initialPageParam = { page := 1, limit := 10 } ∧
    getTodos pageParam r =
      Except.ok
        { todos := r.body
          hasNextPage := decide (pageParam * 10 < totalCount)
          nextCursor :=
            if pageParam * 10 < totalCount then some (pageParam + 1)
            else none } := by
  refine ⟨rfl, rfl, rfl, ?_⟩
  simp only [getTodos, hok, hheader, Bool.not_true, Bool.false_eq_true,
    if_false]
  by_cases hlt : pageParam * 10 < totalCount
  · simp [hlt]
  · simp [hlt]

/-- C3 witness: the cursor specification applied to the concrete page-2 fetch
of the 25-item scenario. -/
theorem getTodos_cursor_spec_witness :
    getTodos 2 (serverResponse 25 2) =
      Except.ok
        { todos := (serverResponse 25 2).body
          hasNextPage := decide (2 * 10 < 25)
          nextCursor := if 2 * 10 < 25 then some (2 + 1) else none } :=
  (getTodos_cursor_spec 2 25 (serverResponse 25 2) (by decide) rfl).2.2.2

/-- C4: fetchNextPage issued while a fetch is in flight or when hasNextPage
is false issues no request and leaves the state unchanged; a request is only
ever issued from a state with no fetch in flight (so page N+1 is never
requested before page N resolves); a second overlapping call is deduplicated
(it issues no request and leaves the state of the first call unchanged); and
the page count after any page resolves the two overlapping calls equals the
page count after a single call. -/
theorem fetchNextPage_no_op_guard (s : CacheState) :
    (s.inFlight.isSome = true ∨ s.hasNextPage = false →
      fetchNextPage s = (s, none)) ∧
    (∀ c, (fetchNextPage s).2 = some c → s.inFlight = none) ∧
    (fetchNextPage (fetchNextPage s).1).1 = (fetchNextPage s).1 ∧
    (∀ c, (fetchNextPage s).2 = some c →
      (fetchNextPage (fetchNextPage s).1).2 = none) ∧
    (∀ page,
      (resolveSuccess (fetchNextPage (fetchNextPage s).1).1 page).pages.length
        = (resolveSuccess (fetchNextPage s).1 page).pages.length) := by
  refine ⟨fetchNextPage_of_blocked s, ?_, ?_, ?_, ?_⟩
  · intro c hc
    rcases fetchNextPage_request_shape s with ⟨h2, _⟩ | ⟨d, _, hif, _⟩
    · rw [h2] at hc; exact absurd hc (by simp)
    · exact hif
  · rcases fetchNextPage_request_shape s with ⟨_, h1⟩ | ⟨d, _, _, h1⟩
    · simp only [h1]
    · rw [h1]
      have : fetchNextPage { s with inFlight := some d } =
          ({ s with inFlight := some d }, none) :=
        fetchNextPage_of_blocked _ (Or.inl rfl)
      rw [this]
  · intro c hc
    rcases fetchNextPage_request_shape s with ⟨h2, _⟩ | ⟨d, _, _, h1⟩
    · rw [h2] at hc; exact absurd hc (by simp)
    · rw [h1]
      have : fetchNextPage { s with inFlight := some d } =
          ({ s with inFlight := some d }, none) :=
        fetchNextPage_of_blocked _ (Or.inl rfl)
      rw [this]
  · intro page
    rcases fetchNextPage_request_shape s with ⟨_, h1⟩ | ⟨d, _, _, h1⟩
    · simp only [h1]
    · rw [h1]
      have : fetchNextPage { s with inFlight := some d } =
          ({ s with inFlight := some d }, none) :=
        fetchNextPage_of_blocked _ (Or.inl rfl)
      rw [this]

/-- C4 witness: the no-op guard applied to the initial-load state, whose
page-1 request is in flight. -/
theorem fetchNextPage_no_op_guard_witness :
    fetchNextPage initialLoad = (initialLoad, none) :=
  (fetchNextPage_no_op_guard initialLoad).1 (Or.inl (by decide))

/-- C5: the flattened list rendered by the view is the concatenation of all
fetched pages' item lists in fetch order (within-page order preserved), and
carries no duplicates whenever the pages' item lists are duplicate-free and
pairwise disjoint; on the concrete 25-item fetch chain the flattened list is
exactly the server's full ordered collection. -/
theorem flattenTodos_concat_nodup (pages : List TodoPage)
    (hnodup : ∀ p ∈ pages, p.todos.Nodup)
    (hdisj : pages.Pairwise (fun p q => p.todos.Disjoint q.todos)) :
    flattenTodos pages = (pages.map (fun p => p.todos)).flatten ∧
    (flattenTodos pages).Nodup ∧
    flattenTodos (fetchChain 25 3 initialPageParam) = serverTodos 25 := by
  refine ⟨List.flatMap_def pages (fun p => p.todos), ?_, by decide⟩
  rw [flattenTodos, List.flatMap_def, List.nodup_flatten]
  constructor
  · rw [List.forall_mem_map]
    exact hnodup
  · rw [List.pairwise_map]
    exact hdisj

/-- C5 witness: the concatenation and no-duplicates property instantiated at
the concrete three-page chain of the 25-item scenario. -/
theorem flattenTodos_concat_nodup_witness :
    (flattenTodos (fetchChain 25 3 initialPageParam)).Nodup :=
  (flattenTodos_concat_nodup (fetchChain 25 3 initialPageParam)
    (by decide) (by decide)).2.1

/-- C6: every successful mutation (create, toggle or delete) invalidates the
todos cache; invalidation discards all accumulated pages and restarts the
initial page-1 load, so once the fresh page-1 fetch resolves the page
sequence is exactly that one page and the visible list is exactly its
contents. -/
theorem mutation_invalidate_resets (kind : MutationKind) (s : AppState)
    (page1 : TodoPage) :
    (onMutationSuccess kind s).cache = invalidate s.cache ∧
    (invalidate s.cache).pages = [] ∧
    (invalidate s.cache).inFlight = some initialPageParam ∧
    (resolveSuccess (invalidate s.cache) page1).pages = [page1] ∧
    flattenTodos (resolveSuccess (invalidate s.cache) page1).pages
      = page1.todos := by
  refine ⟨?_, rfl, rfl, rfl, ?_⟩
  · cases kind <;> rfl
  · simp [flattenTodos, resolveSuccess, invalidate, initialLoad]

/-- C7: a failed page fetch raises `"Failed to fetch todos"` and, at the
cache, sets the error state without touching the accumulated pages and
without issuing any retry (no request remains in flight); a failed
first-page fetch leaves the item list empty, and a failure after two
successful 10-item pages leaves those 20 items visible. -/
theorem failed_fetch_preserves_pages (s : CacheState) (pageParam : Nat)
    (r : Response (List Todo)) (hfail : r.ok = false) :
    getTodos pageParam r = Except.error "Failed to fetch todos" ∧
    (resolveFailure s).pages = s.pages ∧
    (resolveFailure s).errored = true ∧
    (resolveFailure s).inFlight = none ∧
    flattenTodos (resolveFailure initialLoad).pages = [] ∧
    (flattenTodos (resolveFailure twoPagesState).pages).length = 20 ∧
    (resolveFailure twoPagesState).errored = true := by
  refine ⟨?_, rfl, rfl, rfl, rfl, by decide, rfl⟩
  simp [getTodos, hfail]

/-- C7 witness: the failure semantics applied to the in-flight page-3 fetch
of the two-page state, answered with a 500. -/
theorem failed_fetch_preserves_pages_witness :
    getTodos 3 { status := 500, totalCountHeader := none, body := [] }
        = Except.error "Failed to fetch todos" ∧
    (flattenTodos (resolveFailure twoPagesState).pages).length = 20 :=
  ⟨(failed_fetch_preserves_pages twoPagesState 3
      { status := 500, totalCountHeader := none, body := [] }
      (by decide)).1,
   (failed_fetch_preserves_pages twoPagesState 3
      { status := 500, totalCountHeader := none, body := [] }
      (by decide)).2.2.2.2.2.1⟩

/-- C8: each gateway operation fails if and only if the HTTP status is
outside 2xx (so 4xx and 5xx are treated identically), and the raised error
carries exactly "Failed to fetch todos", "Failed to create todo",
"Failed to update todo" or "Failed to delete todo" respectively. -/
theorem gateway_error_taxonomy (pageParam : Nat)
    (rl : Response (List Todo)) (rc rt : Response Todo) (rd : Response Unit) :
    ((getTodos pageParam rl).isOk = rl.ok) ∧
    (¬(200 ≤ rl.status ∧ rl.status < 300) →
      getTodos pageParam rl = Except.error "Failed to fetch todos") ∧
    ((createTodo rc).isOk = rc.ok) ∧
    (¬(200 ≤ rc.status ∧ rc.status < 300) →
      createTodo rc = Except.error "Failed to create todo") ∧
    ((toggleTodo rt).isOk = rt.ok) ∧
    (¬(200 ≤ rt.status ∧ rt.status < 300) →
      toggleTodo rt = Except.error "Failed to update todo") ∧
    ((deleteTodo rd).isOk = rd.ok) ∧
    (¬(200 ≤ rd.status ∧ rd.status < 300) →
      deleteTodo rd = Except.error "Failed to delete todo") := by
  refine ⟨?_, ?_, ?_, ?_, ?_, ?_, ?_, ?_⟩
  · cases hok : rl.ok <;> simp [getTodos, hok, Except.isOk, Except.toBool]
  · intro hbad
    have hok : rl.ok = false := by
      simp [Response.ok]
      omega
    simp [getTodos, hok]
  · cases hok : rc.ok <;> simp [createTodo, hok, Except.isOk, Except.toBool]
  · intro hbad
    have hok : rc.ok = false := by
      simp [Response.ok]
      omega
    simp [createTodo, hok]
  · cases hok : rt.ok <;> simp [toggleTodo, hok, Except.isOk, Except.toBool]
  · intro hbad
    have hok : rt.ok = false := by
      simp [Response.ok]
      omega
    simp [toggleTodo, hok]
  · cases hok : rd.ok <;> simp [deleteTodo, hok, Except.isOk, Except.toBool]
  · intro hbad
    have hok : rd.ok = false := by
      simp [Response.ok]
      omega
    simp [deleteTodo, hok]

/-- C8 witness: a 404 on the list call and a 500 on the delete call raise the
respective exact messages; the list call succeeds on a 200. -/
theorem gateway_error_taxonomy_witness :
    getTodos 1 { status := 404, totalCountHeader := none, body := ([] : List Todo) }
        = Except.error "Failed to fetch todos" ∧
    deleteTodo { status := 500, totalCountHeader := none, body := () }
        = Except.error "Failed to delete todo" ∧
    (getTodos 1 (serverResponse 25 1)).isOk = (serverResponse 25 1).ok :=
  ⟨(gateway_error_taxonomy 1
      { status := 404, totalCountHeader := none, body := [] }
      { status := 200, totalCountHeader := none
        body := { id := 1, title := "t", completed := false, userId := 1 } }
      { status := 200, totalCountHeader := none
        body := { id := 1, title := "t", completed := false, userId := 1 } }
      { status := 500, totalCountHeader := none, body := () }).2.1
      (by decide),
   (gateway_error_taxonomy 1
      { status := 404, totalCountHeader := none, body := [] }
      { status := 200, totalCountHeader := none
        body := { id := 1, title := "t", completed := false, userId := 1 } }
      { status := 200, totalCountHeader := none
        body := { id := 1, title := "t", completed := false, userId := 1 } }
      { status := 500, totalCountHeader := none, body := () }).2.2.2.2.2.2.2
      (by decide),
   (gateway_error_taxonomy 1 (serverResponse 25 1)
      { status := 200, totalCountHeader := none
        body := { id := 1, title := "t", completed := false, userId := 1 } }
      { status := 200, totalCountHeader := none
        body := { id := 1, title := "t", completed := false, userId := 1 } }
      { status := 500, totalCountHeader := none, body := () }).1⟩

/-- C9: for every input todo, the PATCH request toggleTodo issues targets
that todo's id and carries a body whose `completed` field is the logical
negation of the input's `completed` value, and the input todo object is
unchanged after the call. -/
theorem toggle_negates_completed (todo : Todo) :
    (toggleTodoRequest todo).id = todo.id ∧
    (toggleTodoRequest todo).completed = !todo.completed ∧
    (toggleTodoCall todo).1 = todo :=
  ⟨rfl, rfl, rfl⟩

/-- C10: a form submission whose input text is empty or all-whitespace issues
no create request and leaves the client state unchanged; the submit handler
never changes the state at the time of the call; and a create request is
issued exactly when the trimmed input is non-empty. -/
theorem handleSubmit_whitespace_guard (s : AppState) :
    ((∀ c ∈ s.newTodo.toList, c.isWhitespace = true) →
      handleSubmitState s = (s, none)) ∧
    (handleSubmitState s).1 = s ∧
    ((handleSubmitState s).2 ≠ none ↔ jsTrim s.newTodo ≠ "") := by
  refine ⟨?_, rfl, ?_⟩
  · intro h
    have ht : jsTrim s.newTodo = "" := jsTrim_eq_empty_of_whitespace _ h
    simp [handleSubmitState, handleSubmit, ht]
  · by_cases ht : jsTrim s.newTodo = "" <;>
      simp [handleSubmitState, handleSubmit, ht]

/-- C10 witness: submitting the three-space input issues no request and
leaves the state unchanged. -/
theorem handleSubmit_whitespace_guard_witness :
    handleSubmitState { newTodo := "   ", cache := initialLoad }
      = ({ newTodo := "   ", cache := initialLoad }, none) :=
  (handleSubmit_whitespace_guard
    { newTodo := "   ", cache := initialLoad }).1 (by decide)

end TodoClient
